import Mathlib

set_option linter.unusedVariables false

/-!
Shallow embedding of `src/example.c` (dbeecham/sqlite3-examples), a small
demonstration program driving the SQLite embedded engine: schema creation and
versioned migration, an attached in-memory database, a custom scalar function
returning packed monotonic timestamps, a custom aggregate function with a
guarded per-group accumulator, a bounded row-iteration loop, and database
serialization.  C `int` values are modelled as `Int` (the program relies on
defined, non-overflowing signed arithmetic); byte buffers as `List Nat`.
-/

/-! ### Constants from example.c -/

/-- `#define EXAMPLE_AGG_F_SENTINEL 8091` (example.c line 17). -/
def EXAMPLE_AGG_F_SENTINEL : Int := 8091

/-- `#define EXAMPLE_MAX_QUERY_LOOP_STEPS 1048576` (example.c line 22). -/
def EXAMPLE_MAX_QUERY_LOOP_STEPS : Nat := 1048576

/-! ### Aggregate accumulator and callbacks (example.c lines 30-148)

`struct example_agg_f_s { int sentinel; int aggregate; }`.  The engine
zero-initialises the accumulator before the first step call of each group
(`sqlite3_aggregate_context` semantics). -/

structure example_agg_f_s where
  sentinel : Int
  aggregate : Int
deriving DecidableEq, Repr

/-- `sizeof(struct example_agg_f_s)`: two 4-byte C ints. -/
def example_agg_f_s_size : Nat := 8

/-- Errors the aggregate step callback can raise via `sqlite3_result_error`. -/
inductive AggErr where
  | wrongArgCount
  | sentinelWrong
deriving DecidableEq, Repr

/-- `example_agg_f_step` (example.c lines 95-138): given the accumulator
memory `agg`, the argument count and the three column values, returns the
accumulator memory after the call together with `some` error if
`sqlite3_result_error` was invoked (in which case the memory is untouched
beyond what the code did before erroring). -/
def example_agg_f_step (agg : example_agg_f_s) (argc : Nat)
    (nodeid outputid groupid : Int) : example_agg_f_s × Option AggErr :=
  if argc ≠ 3 then
    (agg, some AggErr.wrongArgCount)
  else
    -- first call: sentinel is zero, set initial values
    let agg1 := if agg.sentinel = 0 then
      { sentinel := EXAMPLE_AGG_F_SENTINEL, aggregate := 80 }
      else agg
    if agg1.sentinel ≠ EXAMPLE_AGG_F_SENTINEL then
      (agg1, some AggErr.sentinelWrong)
    else
      ({ agg1 with aggregate := agg1.aggregate + groupid }, none)

/-- `example_agg_f_final` (example.c lines 141-148): returns the raw
accumulator as the group's result blob (modelled as the record itself). -/
def example_agg_f_final (agg : example_agg_f_s) : example_agg_f_s :=
  agg

/-- One engine-driven step invocation: skipped if an earlier step already
raised an error (the engine aborts the query on a step error). -/
def example_agg_f_stepFold (st : example_agg_f_s × Option AggErr)
    (r : Int × Int × Int) : example_agg_f_s × Option AggErr :=
  if st.2.isSome then st else example_agg_f_step st.1 3 r.1 r.2.1 r.2.2

/-- Running the step callback once per contributing row of a group, starting
from the zero-initialised accumulator the engine provides.  Rows are
(deviceid-as-int, outputid, groupid) triples, each step receiving `argc = 3`
as registered. -/
def example_agg_f_run (rows : List (Int × Int × Int)) : example_agg_f_s × Option AggErr :=
  rows.foldl example_agg_f_stepFold (⟨0, 0⟩, none)

/-! ### Monotonic timestamp scalar function (example.c lines 152-185) -/

/-- `example_now_monotonic` packing (example.c lines 173-175): given the
monotonic clock reading `(sec, nsec)`,
`time = ((sec & 0xffffffff) << 32) | (nsec & 0xffffffff)`. -/
def example_now_monotonic (sec nsec : Nat) : Nat :=
  ((sec &&& 0xffffffff) <<< 32) ||| (nsec &&& 0xffffffff)

/-- Lexicographic order on monotonic clock readings `(sec, nsec)`: the reading
of a later `clock_gettime(CLOCK_MONOTONIC)` call is ≥ the earlier one. -/
def clock_le (s1 n1 s2 n2 : Nat) : Prop :=
  s1 < s2 ∨ (s1 = s2 ∧ n1 ≤ n2)

/-! ### Serialization (example.c lines 577-605) -/

/-- `example_serialize` (example.c lines 577-605): the engine reports the
serialized length `db_len`; the function returns -1 exactly on the sentinel
length -1, else 0. -/
def example_serialize (db_len : Int) : Int :=
  if db_len = -1 then -1 else 0

/-! ### SQLite result codes and open flags -/

def SQLITE_OK : Int := 0

def SQLITE_ROW : Int := 100

def SQLITE_DONE : Int := 101

def SQLITE_OPEN_READWRITE : Nat := 0x00000002

def SQLITE_OPEN_CREATE : Nat := 0x00000004

def SQLITE_OPEN_MEMORY : Nat := 0x00000080

/-- The flags `example_init` passes to `sqlite3_open_v2` (example.c line 410):
`SQLITE_OPEN_READWRITE | SQLITE_OPEN_CREATE | SQLITE_OPEN_MEMORY`. -/
def example_init_open_flags : Nat :=
  SQLITE_OPEN_READWRITE ||| SQLITE_OPEN_CREATE ||| SQLITE_OPEN_MEMORY

/-- The path `example_init` passes to `sqlite3_open_v2` (example.c line 408). -/
def example_init_open_path : String := "db.sqlite"

/-- Engine semantics of `sqlite3_open_v2`: when `SQLITE_OPEN_MEMORY` is among
the flags the database is a pure in-memory database (the path only names it);
nothing is read from or persisted to the filesystem. -/
def sqlite3_open_is_memory (flags : Nat) : Bool :=
  flags &&& SQLITE_OPEN_MEMORY != 0

/-- The attach target of `example_init_schema_memory` (example.c line 302):
the text between the quotes in the statement `attach <target> as state;`. -/
def example_state_attach_target : String := ":memory:"

/-- Engine semantics of `attach`: the attached database is memory-resident
exactly when the target is the `:memory:` name. -/
def sqlite3_attach_is_memory (target : String) : Bool :=
  target == ":memory:"

/-! ### Persistent schema and versioned migration (example.c lines 38-64,
190-287)

The DDL script `example_schema_full` is modelled structurally: each
`create table` statement becomes a `TableDef` transcribing its columns,
check constraints, primary key and foreign keys. -/

structure ColumnDef where
  name : String
  ctype : String
  notNull : Bool
  check : Option String
deriving DecidableEq, Repr

structure ForeignKeyDef where
  columns : List String
  refTable : String
  refColumns : List String
deriving DecidableEq, Repr

structure TableDef where
  name : String
  columns : List ColumnDef
  primaryKey : List String
  foreignKeys : List ForeignKeyDef
  withoutRowid : Bool
deriving DecidableEq, Repr

/-- `create table devices (...)` (example.c lines 41-44). -/
def devices_table : TableDef :=
  { name := "devices"
    columns := [⟨"deviceid", "text", true, some "length(deviceid)==12"⟩]
    primaryKey := ["deviceid"]
    foreignKeys := []
    withoutRowid := true }

/-- `create table outputs (...)` (example.c lines 47-52). -/
def outputs_table : TableDef :=
  { name := "outputs"
    columns := [⟨"deviceid", "text", true, none⟩,
                ⟨"outputid", "int", true, some "0 <= outputid"⟩]
    primaryKey := ["deviceid", "outputid"]
    foreignKeys := [⟨["deviceid"], "devices", ["deviceid"]⟩]
    withoutRowid := true }

/-- `create table groups (...)` (example.c lines 54-60). -/
def groups_table : TableDef :=
  { name := "groups"
    columns := [⟨"deviceid", "text", true, none⟩,
                ⟨"outputid", "int", true, none⟩,
                ⟨"groupid", "int", true, none⟩]
    primaryKey := ["deviceid", "outputid", "groupid"]
    foreignKeys := [⟨["deviceid", "outputid"], "outputs", ["deviceid", "outputid"]⟩]
    withoutRowid := true }

inductive SchemaOp where
  | createTable (t : TableDef)
  | setUserVersion (v : Int)
deriving DecidableEq

/-- The statements between `begin;` and `commit;` of `example_schema_full`
(example.c lines 38-64). -/
def example_schema_full : List SchemaOp :=
  [SchemaOp.createTable devices_table,
   SchemaOp.createTable outputs_table,
   SchemaOp.createTable groups_table,
   SchemaOp.setUserVersion 1]

/-- The observable state of the primary database for the migration logic:
the persisted `pragma user_version` marker and the tables present. -/
structure DbState where
  user_version : Int
  tables : List TableDef
deriving DecidableEq

/-- Engine semantics of one DDL statement: `create table` fails if a table of
that name already exists, `pragma user_version = v` stores the marker. -/
def execOp (st : DbState) : SchemaOp → Option DbState
  | SchemaOp.createTable t =>
    if t.name ∈ st.tables.map TableDef.name then none
    else some { st with tables := st.tables ++ [t] }
  | SchemaOp.setUserVersion v => some { st with user_version := v }

/-- Engine semantics of `sqlite3_exec` on a `begin; ...; commit;` script: the
statements apply in order inside one transaction; a failure yields no new
state (the transaction boundary makes the script all-or-nothing). -/
def execScript (st : DbState) : List SchemaOp → Option DbState
  | [] => some st
  | op :: rest =>
    match execOp st op with
    | some st2 => execScript st2 rest
    | none => none

inductive MigrationError where
  | execFailed
  | schemaTooNew
deriving DecidableEq, Repr

/-- `example_init_schema_migration_full` (example.c lines 190-212): runs the
full-schema script via `sqlite3_exec`. -/
def example_init_schema_migration_full (st : DbState) : Except MigrationError DbState :=
  match execScript st example_schema_full with
  | some st2 => Except.ok st2
  | none => Except.error MigrationError.execFailed

/-- `example_init_schema_migration` (example.c lines 215-287), given the
`pragma user_version` value read from the database state: version 0 runs the
full migration, version 1 is a no-op, anything else is the schema-too-new
failure. -/
def example_init_schema_migration (st : DbState) : Except MigrationError DbState :=
  if st.user_version = 0 then example_init_schema_migration_full st
  else if st.user_version = 1 then Except.ok st
  else Except.error MigrationError.schemaTooNew

/-! ### Device insert (example.c lines 465-527, main at 608-652) -/

inductive DeviceInsertResult where
  | ok (tbl : List (List Char))
  | checkViolation
  | uniqueViolation
deriving DecidableEq, Repr

/-- `sqlite3_bind_text` with an explicit non-negative length argument binds
exactly the first `len` bytes of the supplied text. -/
def sqlite3_bind_text_value (s : List Char) (len : Nat) : List Char :=
  s.take len

/-- Engine semantics of `insert into devices(deviceid) values (?)` against
the `devices` table of `example_schema_full`: the check constraint
`length(deviceid)==12` and the primary-key uniqueness are enforced. -/
def devices_insert (tbl : List (List Char)) (d : List Char) : DeviceInsertResult :=
  if d.length ≠ 12 then DeviceInsertResult.checkViolation
  else if d ∈ tbl then DeviceInsertResult.uniqueViolation
  else DeviceInsertResult.ok (tbl ++ [d])

/-- `example_device_new` (example.c lines 465-527), data level: binds the
first `deviceid_len` bytes of `deviceid` (example.c lines 492-505) and steps
the insert. -/
def example_device_new (tbl : List (List Char)) (deviceid : List Char)
    (deviceid_len : Nat) : DeviceInsertResult :=
  devices_insert tbl (sqlite3_bind_text_value deviceid deviceid_len)

/-! ### Bounded aggregate-query row loop (example.c lines 530-574) -/

/-- Result of one `sqlite3_step` call on the prepared select. -/
inductive StepResult where
  | row (blob : List Nat)
  | done
  | err (code : Int)
deriving DecidableEq, Repr

inductive QueryResult where
  | ok
  | engineErr (code : Int)
  | unboundedErr
deriving DecidableEq, Repr

/-- The `for` loop of `example_custom_aggregate_query` (example.c lines
553-571), with `fuel` the remaining iterations and `i` the index of the next
step call.  Returns how many step calls were made and the function's outcome.
The fuel-exhausted case models falling out of the loop with the last step
result (necessarily a row) failing the `SQLITE_DONE != ret` check.  A row's
blob is read via `sqlite3_column_blob` only for logging, with no length
validation; the source reads the first `example_agg_f_s_size` bytes of the
blob, which is defined behaviour exactly when the blob has at least that many
bytes (a shorter blob makes the source dereference out of bounds), so this
model is faithful for step sequences whose row blobs all have at least
`example_agg_f_s_size` bytes — which includes every row this program's
aggregate can produce, the final callback emitting exactly that many. -/
def example_agg_query_loop (steps : Nat → StepResult) : Nat → Nat → Nat × QueryResult
  | _, 0 => (0, QueryResult.unboundedErr)
  | i, fuel + 1 =>
    match steps i with
    | StepResult.done => (1, QueryResult.ok)
    | StepResult.err c => (1, QueryResult.engineErr c)
    | StepResult.row _ =>
      let rest := example_agg_query_loop steps (i + 1) fuel
      (rest.1 + 1, rest.2)

/-- `example_custom_aggregate_query` (example.c lines 530-574), given the
step-result sequence of its prepared statement. -/
def example_custom_aggregate_query (steps : Nat → StepResult) : Nat × QueryResult :=
  example_agg_query_loop steps 0 EXAMPLE_MAX_QUERY_LOOP_STEPS

/-- Replace every row blob in a step result, leaving the shape alone. -/
def StepResult.mapBlob (g : List Nat → List Nat) : StepResult → StepResult
  | StepResult.row b => StepResult.row (g b)
  | s => s

/-! ### Statement finalization per exit path (example.c lines 215-287,
465-527, 530-574)

Each statement-preparing function is modelled over an oracle giving the
outcomes of its engine calls; the model returns the C return value together
with whether a statement was successfully prepared and whether
`sqlite3_finalize` was called on it before returning. -/

structure MigOracle where
  prepare_ok : Bool
  step1 : Int
  finalize_ok : Bool
  user_version : Int
  exec_full_ok : Bool
deriving DecidableEq, Repr

/-- Control flow of `example_init_schema_migration` (example.c lines
215-287) with statement tracking: `(return value, prepared, finalized)`. -/
def example_init_schema_migration_stmts (o : MigOracle) : Int × Bool × Bool :=
  if o.prepare_ok = false then (-1, false, false)
  else if o.step1 ≠ SQLITE_ROW then (-1, true, false)
  else if o.finalize_ok = false then (-1, true, true)
  else if o.user_version = 0 then
    (if o.exec_full_ok then (0, true, true) else (-1, true, true))
  else if o.user_version = 1 then (0, true, true)
  else (-1, true, true)

structure DevOracle where
  prepare_ok : Bool
  bind_ret : Int
  step_ret : Int
  finalize_ok : Bool
deriving DecidableEq, Repr

/-- Control flow of `example_device_new` (example.c lines 465-527) with
statement tracking: `(return value, prepared, finalized)`.  Note the code
checks `-1 == ret` after `sqlite3_bind_text` and `SQLITE_DONE != ret` after
`sqlite3_step`, returning early in both cases without finalizing. -/
def example_device_new_stmts (o : DevOracle) : Int × Bool × Bool :=
  if o.prepare_ok = false then (-1, false, false)
  else if o.bind_ret = -1 then (-1, true, false)
  else if o.step_ret ≠ SQLITE_DONE then (-1, true, false)
  else if o.finalize_ok = false then (-1, true, true)
  else (0, true, true)

/-- Control flow of `example_custom_aggregate_query` (example.c lines
530-574) with statement tracking: the function contains no
`sqlite3_finalize` call on any path. -/
def example_custom_aggregate_query_stmts (prepare_ok : Bool)
    (steps : Nat → StepResult) : Int × Bool × Bool :=
  if prepare_ok = false then (-1, false, false)
  else
    match (example_custom_aggregate_query steps).2 with
    | QueryResult.ok => (0, true, false)
    | _ => (-1, true, false)

/-! ### Helper lemmas -/

theorem example_now_monotonic_eq (sec nsec : Nat) :
    example_now_monotonic sec nsec = 2 ^ 32 * (sec % 2 ^ 32) + nsec % 2 ^ 32 := by
  have h1 : (0xffffffff : Nat) = 2 ^ 32 - 1 := by norm_num
  have h2 : nsec % 2 ^ 32 < 2 ^ 32 := Nat.mod_lt _ (by norm_num)
  rw [example_now_monotonic, h1, Nat.and_pow_two_sub_one_eq_mod,
    Nat.and_pow_two_sub_one_eq_mod, Nat.shiftLeft_eq, Nat.mul_comm,
    ← Nat.mul_add_lt_is_or h2]

theorem example_agg_f_step_initialised (a x y g : Int) :
    example_agg_f_step ⟨EXAMPLE_AGG_F_SENTINEL, a⟩ 3 x y g
    = (⟨EXAMPLE_AGG_F_SENTINEL, a + g⟩, none) := by
  simp [example_agg_f_step, EXAMPLE_AGG_F_SENTINEL]

theorem example_agg_f_stepFold_initialised (a : Int) (r : Int × Int × Int) :
    example_agg_f_stepFold (⟨EXAMPLE_AGG_F_SENTINEL, a⟩, none) r
    = (⟨EXAMPLE_AGG_F_SENTINEL, a + r.2.2⟩, none) := by
  rw [example_agg_f_stepFold]
  simp [example_agg_f_step_initialised]

/-- From a validly-initialised accumulator, folding the step callback adds the
sum of the groupid components. -/
theorem example_agg_f_run_from_init (rows : List (Int × Int × Int)) :
    ∀ a : Int,
    List.foldl example_agg_f_stepFold (⟨EXAMPLE_AGG_F_SENTINEL, a⟩, none) rows
    = (⟨EXAMPLE_AGG_F_SENTINEL, a + (rows.map (fun r => r.2.2)).sum⟩, none) := by
  induction rows with
  | nil => intro a; simp
  | cons x xs ih =>
    intro a
    rw [List.foldl_cons, example_agg_f_stepFold_initialised, ih]
    simp [add_assoc]

theorem example_agg_f_run_eq (rows : List (Int × Int × Int)) (hne : rows ≠ []) :
    example_agg_f_run rows
    = (⟨EXAMPLE_AGG_F_SENTINEL, 80 + (rows.map (fun r => r.2.2)).sum⟩, none) := by
  match rows, hne with
  | x :: xs, _ =>
    rw [example_agg_f_run]
    have h0 : example_agg_f_stepFold (⟨0, 0⟩, none) x
        = (⟨EXAMPLE_AGG_F_SENTINEL, 80 + x.2.2⟩, none) := by
      rw [example_agg_f_stepFold]
      simp [example_agg_f_step, EXAMPLE_AGG_F_SENTINEL]
    rw [List.foldl_cons, h0, example_agg_f_run_from_init]
    simp [add_assoc]

theorem example_agg_query_loop_count_le (steps : Nat → StepResult) :
    ∀ fuel i, (example_agg_query_loop steps i fuel).1 ≤ fuel := by
  intro fuel
  induction fuel with
  | zero => intro i; simp [example_agg_query_loop]
  | succ f ih =>
    intro i
    rw [example_agg_query_loop]
    cases hs : steps i with
    | row b =>
      have := ih (i + 1)
      simp only []
      omega
    | done => simp
    | err c => simp

theorem example_agg_query_loop_ok_done (steps : Nat → StepResult) :
    ∀ fuel i, (example_agg_query_loop steps i fuel).2 = QueryResult.ok →
    ∃ k, k < fuel ∧ steps (i + k) = StepResult.done
      ∧ ∀ j, j < k → ∃ b, steps (i + j) = StepResult.row b := by
  intro fuel
  induction fuel with
  | zero => intro i h; simp [example_agg_query_loop] at h
  | succ f ih =>
    intro i h
    rw [example_agg_query_loop] at h
    cases hs : steps i with
    | done =>
      refine ⟨0, by omega, by simpa using hs, ?_⟩
      intro j hj
      omega
    | err c => rw [hs] at h; simp at h
    | row b =>
      rw [hs] at h
      simp only [] at h
      obtain ⟨k, hk, hd, hr⟩ := ih (i + 1) h
      refine ⟨k + 1, by omega, ?_, ?_⟩
      · rw [show i + (k + 1) = (i + 1) + k by omega]
        exact hd
      · intro j hj
        cases j with
        | zero => exact ⟨b, by simpa using hs⟩
        | succ j0 =>
          rw [show i + (j0 + 1) = (i + 1) + j0 by omega]
          exact hr j0 (by omega)

theorem example_agg_query_loop_all_rows (steps : Nat → StepResult) :
    ∀ fuel i, (∀ j, j < fuel → ∃ b, steps (i + j) = StepResult.row b) →
    (example_agg_query_loop steps i fuel).2 = QueryResult.unboundedErr := by
  intro fuel
  induction fuel with
  | zero => intro i h; simp [example_agg_query_loop]
  | succ f ih =>
    intro i h
    obtain ⟨b, hb⟩ := h 0 (by omega)
    rw [show i + 0 = i by omega] at hb
    rw [example_agg_query_loop, hb]
    simp only []
    apply ih
    intro j hj
    have := h (j + 1) (by omega)
    rwa [show i + (j + 1) = (i + 1) + j by omega] at this

theorem example_agg_query_loop_step_row {steps : Nat → StepResult} {i : Nat}
    {b : List Nat} (h : steps i = StepResult.row b) (f : Nat) :
    example_agg_query_loop steps i (f + 1)
    = ((example_agg_query_loop steps (i + 1) f).1 + 1,
       (example_agg_query_loop steps (i + 1) f).2) := by
  rw [example_agg_query_loop, h]

theorem example_agg_query_loop_step_done {steps : Nat → StepResult} {i : Nat}
    (h : steps i = StepResult.done) (f : Nat) :
    example_agg_query_loop steps i (f + 1) = (1, QueryResult.ok) := by
  rw [example_agg_query_loop, h]

theorem example_agg_query_loop_mapBlob (steps : Nat → StepResult)
    (g : List Nat → List Nat) :
    ∀ fuel i, example_agg_query_loop (fun n => (steps n).mapBlob g) i fuel
      = example_agg_query_loop steps i fuel := by
  intro fuel
  induction fuel with
  | zero => intro i; rfl
  | succ f ih =>
    intro i
    cases hs : steps i with
    | row b =>
      have h2 : (fun n => (steps n).mapBlob g) i = StepResult.row (g b) := by
        simp [hs, StepResult.mapBlob]
      rw [example_agg_query_loop_step_row h2 f, example_agg_query_loop_step_row hs f,
        ih (i + 1)]
    | done =>
      have h2 : (fun n => (steps n).mapBlob g) i = StepResult.done := by
        simp [hs, StepResult.mapBlob]
      rw [example_agg_query_loop_step_done h2 f, example_agg_query_loop_step_done hs f]
    | err c =>
      rw [example_agg_query_loop, example_agg_query_loop, hs]
      rfl

theorem execScript_cons_ok {st st2 : DbState} {op : SchemaOp}
    (h : execOp st op = some st2) (rest : List SchemaOp) :
    execScript st (op :: rest) = execScript st2 rest := by
  rw [execScript, h]

theorem execOp_createTable_fresh {st : DbState} {t : TableDef}
    (h : t.name ∉ st.tables.map TableDef.name) :
    execOp st (SchemaOp.createTable t)
    = some ⟨st.user_version, st.tables ++ [t]⟩ := by
  rw [execOp, if_neg h]

theorem execOp_setUserVersion (st : DbState) (v : Int) :
    execOp st (SchemaOp.setUserVersion v) = some ⟨v, st.tables⟩ := rfl

/-! ### Claim theorems -/

/-- C1: schema-version dispatch of `example_init_schema_migration`.  Marker 0
(on a store without the three tables, as a fresh store is) applies the full
schema — the devices, outputs and groups table definitions with their keys,
checks and foreign keys — atomically and sets the marker to 1, succeeding;
marker 1 succeeds with no mutation; any other marker fails with the
schema-too-new error and performs no mutation. -/
theorem example_init_schema_migration_dispatch (st : DbState) :
    (st.user_version = 0 →
      devices_table.name ∉ st.tables.map TableDef.name →
      outputs_table.name ∉ st.tables.map TableDef.name →
      groups_table.name ∉ st.tables.map TableDef.name →
      example_init_schema_migration st
        = Except.ok ⟨1, st.tables ++ [devices_table, outputs_table, groups_table]⟩)
    ∧ (st.user_version = 1 → example_init_schema_migration st = Except.ok st)
    ∧ (st.user_version ≠ 0 → st.user_version ≠ 1 →
        example_init_schema_migration st = Except.error MigrationError.schemaTooNew) := by
  refine ⟨?_, ?_, ?_⟩
  · intro h0 hd ho hg
    have ho2 : outputs_table.name ∉ (st.tables ++ [devices_table]).map TableDef.name := by
      rw [List.map_append, List.mem_append]
      push_neg
      exact ⟨ho, by decide⟩
    have hg2 : groups_table.name
        ∉ ((st.tables ++ [devices_table]) ++ [outputs_table]).map TableDef.name := by
      simp only [List.map_append, List.mem_append]
      push_neg
      exact ⟨⟨hg, by decide⟩, by decide⟩
    rw [example_init_schema_migration, if_pos h0,
      example_init_schema_migration_full, example_schema_full,
      execScript_cons_ok (execOp_createTable_fresh hd),
      execScript_cons_ok (execOp_createTable_fresh ho2),
      execScript_cons_ok (execOp_createTable_fresh hg2),
      execScript_cons_ok (execOp_setUserVersion _ 1),
      execScript]
    simp [List.append_assoc]
  · intro h1
    rw [example_init_schema_migration, if_neg (by omega), if_pos h1]
  · intro h0 h1
    rw [example_init_schema_migration, if_neg h0, if_neg h1]

/-- Witness for C1: the three dispatch branches at concrete states — a fresh
store (marker 0, no tables), a migrated store (marker 1), and a too-new store
(marker 5). -/
theorem example_init_schema_migration_dispatch_witness :
    example_init_schema_migration ⟨0, []⟩
      = Except.ok ⟨1, [devices_table, outputs_table, groups_table]⟩
    ∧ example_init_schema_migration ⟨1, [devices_table]⟩
      = Except.ok ⟨1, [devices_table]⟩
    ∧ example_init_schema_migration ⟨5, []⟩
      = Except.error MigrationError.schemaTooNew := by
  refine ⟨?_, ?_, ?_⟩
  · have h := (example_init_schema_migration_dispatch ⟨0, []⟩).1 rfl
      (by decide) (by decide) (by decide)
    simpa using h
  · exact (example_init_schema_migration_dispatch ⟨1, [devices_table]⟩).2.1 rfl
  · exact (example_init_schema_migration_dispatch ⟨5, []⟩).2.2 (by decide) (by decide)

/-- C2: aggregate correctness.  For every group with at least one contributing
row, after stepping once per row and finalizing, the accumulator's running sum
is 80 plus the sum of the rows' group-index (third-argument) values, with no
step error; in particular a single row with group-index 5 finalizes to 85. -/
theorem example_agg_f_aggregate_correct :
    (∀ rows : List (Int × Int × Int), rows ≠ [] →
      (example_agg_f_final (example_agg_f_run rows).1).aggregate
          = 80 + (rows.map (fun r => r.2.2)).sum
        ∧ (example_agg_f_run rows).2 = none)
    ∧ (example_agg_f_final (example_agg_f_run [(1, 1, 5)]).1).aggregate = 85 := by
  constructor
  · intro rows hne
    rw [example_agg_f_run_eq rows hne]
    exact ⟨rfl, rfl⟩
  · decide

/-- Witness for C2: a concrete group with one row of group-index 7. -/
theorem example_agg_f_aggregate_correct_witness :
    (example_agg_f_final (example_agg_f_run [((2 : Int), (3 : Int), (7 : Int))]).1).aggregate
        = 80 + ([((2 : Int), (3 : Int), (7 : Int))].map (fun r => r.2.2)).sum
      ∧ (example_agg_f_run [((2 : Int), (3 : Int), (7 : Int))]).2 = none :=
  example_agg_f_aggregate_correct.1 [(2, 3, 7)] (by decide)

/-- C3 counterexample: the claim says `example_init` opens the primary
database as a file-backed store, i.e. without the memory flag; but
`SQLITE_OPEN_MEMORY` is among the flags it passes to `sqlite3_open_v2`
(example.c line 410), so the primary database is memory-resident and the
schema-version marker it holds is not persisted across process runs. -/
theorem example_init_open_flags_memory_counterexample :
    ¬ (sqlite3_open_is_memory example_init_open_flags = false) := by decide

/-- C3 (amended): `example_init` opens the primary database with
`SQLITE_OPEN_READWRITE | SQLITE_OPEN_CREATE | SQLITE_OPEN_MEMORY`, so the
primary database (and with it the schema-version marker) is memory-resident
and recreated every run; the Measured/Setpoint tables live in a separately
attached memory database (`attach ":memory:" as state`). -/
theorem example_init_memory_resident :
    sqlite3_open_is_memory example_init_open_flags = true
    ∧ example_init_open_flags &&& SQLITE_OPEN_READWRITE ≠ 0
    ∧ example_init_open_flags &&& SQLITE_OPEN_CREATE ≠ 0
    ∧ sqlite3_attach_is_memory example_state_attach_target = true := by decide

/-- C4 (amended): the scalar timestamp function packs the low 32 bits of the
whole-seconds value into the high half and the low 32 bits of the nanosecond
remainder into the low half of the 64-bit result; and for two sequential
readings of the monotonic clock — valid nanosecond fields, the later reading
at least the earlier — the packed values are non-decreasing, provided the
seconds value stays below the 2^32 rollover of the 32-bit truncation. -/
theorem example_now_monotonic_packed_monotone :
    ∀ s1 n1 s2 n2 : Nat,
      example_now_monotonic s1 n1 = 2 ^ 32 * (s1 % 2 ^ 32) + n1 % 2 ^ 32
      ∧ (n1 < 1000000000 → n2 < 1000000000 → s2 < 2 ^ 32 →
          clock_le s1 n1 s2 n2 →
          example_now_monotonic s1 n1 ≤ example_now_monotonic s2 n2) := by
  intro s1 n1 s2 n2
  refine ⟨example_now_monotonic_eq s1 n1, ?_⟩
  intro hn1 hn2 hs2 hle
  have hle2 : s1 < s2 ∨ (s1 = s2 ∧ n1 ≤ n2) := hle
  have hs1 : s1 < 2 ^ 32 := by rcases hle2 with h | ⟨h, _⟩ <;> omega
  rw [example_now_monotonic_eq, example_now_monotonic_eq,
    Nat.mod_eq_of_lt hs1, Nat.mod_eq_of_lt hs2,
    Nat.mod_eq_of_lt (show n1 < 2 ^ 32 by omega),
    Nat.mod_eq_of_lt (show n2 < 2 ^ 32 by omega)]
  rcases hle2 with h | ⟨h, h2⟩ <;> omega

/-- C4 counterexample: at the 2^32-second rollover of the 32-bit seconds
truncation, a later (greater) monotonic clock reading packs to a strictly
smaller 64-bit value, so the claim's unconditional monotonicity is false. -/
theorem example_now_monotonic_rollover_counterexample :
    clock_le (2 ^ 32 - 1) 0 (2 ^ 32) 0
    ∧ example_now_monotonic (2 ^ 32) 0 < example_now_monotonic (2 ^ 32 - 1) 0 := by
  constructor
  · exact Or.inl (by norm_num)
  · rw [example_now_monotonic_eq, example_now_monotonic_eq]
    norm_num

/-- Witness for C4: two concrete pre-rollover readings. -/
theorem example_now_monotonic_packed_monotone_witness :
    example_now_monotonic 5 10 ≤ example_now_monotonic 6 3 :=
  (example_now_monotonic_packed_monotone 5 10 6 3).2 (by norm_num) (by norm_num)
    (by norm_num) (Or.inl (by norm_num))

/-- C5: the row loop of `example_custom_aggregate_query` makes at most
`EXAMPLE_MAX_QUERY_LOOP_STEPS` step calls; it returns success only if a step
reported the done state within the cap (all earlier steps being rows); and if
every step within the cap reports a row, the function fails with the
unbounded-result error rather than succeeding with truncated output. -/
theorem example_custom_aggregate_query_bounded (steps : Nat → StepResult) :
    (example_custom_aggregate_query steps).1 ≤ EXAMPLE_MAX_QUERY_LOOP_STEPS
    ∧ ((example_custom_aggregate_query steps).2 = QueryResult.ok →
        ∃ k, k < EXAMPLE_MAX_QUERY_LOOP_STEPS ∧ steps k = StepResult.done
          ∧ ∀ j, j < k → ∃ b, steps j = StepResult.row b)
    ∧ ((∀ j, j < EXAMPLE_MAX_QUERY_LOOP_STEPS → ∃ b, steps j = StepResult.row b) →
        (example_custom_aggregate_query steps).2 = QueryResult.unboundedErr) := by
  refine ⟨example_agg_query_loop_count_le steps EXAMPLE_MAX_QUERY_LOOP_STEPS 0, ?_, ?_⟩
  · intro h
    obtain ⟨k, hk, hd, hr⟩ :=
      example_agg_query_loop_ok_done steps EXAMPLE_MAX_QUERY_LOOP_STEPS 0 h
    exact ⟨k, hk, by simpa using hd, fun j hj => by simpa using hr j hj⟩
  · intro h
    exact example_agg_query_loop_all_rows steps EXAMPLE_MAX_QUERY_LOOP_STEPS 0
      (fun j hj => by simpa using h j hj)

/-- Witness for C5: the step sequence that reports done immediately. -/
theorem example_custom_aggregate_query_bounded_witness :
    ∃ k, k < EXAMPLE_MAX_QUERY_LOOP_STEPS
      ∧ (fun _ => StepResult.done) k = StepResult.done
      ∧ ∀ j, j < k → ∃ b, (fun _ => StepResult.done) j = StepResult.row b :=
  (example_custom_aggregate_query_bounded (fun _ => StepResult.done)).2.1
    (by
      rw [example_custom_aggregate_query,
        show EXAMPLE_MAX_QUERY_LOOP_STEPS = 1048575 + 1 from rfl,
        example_agg_query_loop_step_done rfl])

/-- C6: guard integrity of the aggregate step callback.  With the guard field
nonzero and different from the 8091 sentinel, the step surfaces the
guard-violation error and leaves the accumulator unmodified; on a first
invocation (guard zero) it sets the guard to the sentinel, initialises the
sum to the 80 baseline, and aggregates the row. -/
theorem example_agg_f_step_guard :
    (∀ (agg : example_agg_f_s) (x y g : Int),
      agg.sentinel ≠ 0 → agg.sentinel ≠ EXAMPLE_AGG_F_SENTINEL →
      example_agg_f_step agg 3 x y g = (agg, some AggErr.sentinelWrong))
    ∧ (∀ a x y g : Int,
      example_agg_f_step ⟨0, a⟩ 3 x y g
        = (⟨EXAMPLE_AGG_F_SENTINEL, 80 + g⟩, none)) := by
  constructor
  · intro agg x y g h0 hS
    rw [example_agg_f_step]
    simp [h0, hS]
  · intro a x y g
    rw [example_agg_f_step]
    simp [EXAMPLE_AGG_F_SENTINEL]

/-- Witness for C6: a corrupted guard value 7 is rejected without change. -/
theorem example_agg_f_step_guard_witness :
    example_agg_f_step ⟨7, 42⟩ 3 0 0 5 = (⟨7, 42⟩, some AggErr.sentinelWrong) :=
  example_agg_f_step_guard.1 ⟨7, 42⟩ 0 0 5 (by decide) (by decide)

/-- C7 counterexample: `example_custom_aggregate_query` successfully prepares
its statement and returns success after the query reports done, yet
`sqlite3_finalize` is never called — a successfully prepared statement is
left unfinalized on a (successful) exit path, so the claim is false. -/
theorem example_custom_aggregate_query_leak_counterexample :
    example_custom_aggregate_query_stmts true (fun _ => StepResult.done)
      = (0, true, false) := by
  have heval : example_custom_aggregate_query (fun _ => StepResult.done)
      = (1, QueryResult.ok) := by
    rw [example_custom_aggregate_query,
      show EXAMPLE_MAX_QUERY_LOOP_STEPS = 1048575 + 1 from rfl,
      example_agg_query_loop_step_done rfl]
  rw [example_custom_aggregate_query_stmts, if_neg (by decide), heval]

/-- C7 (amended): statement finalization per exit path.
`example_init_schema_migration` leaves its successfully prepared statement
unfinalized exactly when the version-read step fails (every other path
finalizes it); `example_device_new` leaves it unfinalized exactly when the
bind reports -1 or the step does not report done; and
`example_custom_aggregate_query` never finalizes its statement on any path. -/
theorem example_stmt_finalization_paths :
    (∀ o : MigOracle,
      ((example_init_schema_migration_stmts o).2.1 = true
        ∧ (example_init_schema_migration_stmts o).2.2 = false)
      ↔ (o.prepare_ok = true ∧ o.step1 ≠ SQLITE_ROW))
    ∧ (∀ o : DevOracle,
      ((example_device_new_stmts o).2.1 = true
        ∧ (example_device_new_stmts o).2.2 = false)
      ↔ (o.prepare_ok = true ∧ (o.bind_ret = -1 ∨ o.step_ret ≠ SQLITE_DONE)))
    ∧ (∀ (p : Bool) (steps : Nat → StepResult),
      (example_custom_aggregate_query_stmts p steps).2.2 = false) := by
  refine ⟨?_, ?_, ?_⟩
  · intro o
    rcases o with ⟨po, s1, fo, uv, eo⟩
    cases po <;> simp [example_init_schema_migration_stmts] <;>
      split_ifs <;> simp_all
  · intro o
    rcases o with ⟨po, br, sr, fo⟩
    cases po <;> simp [example_device_new_stmts] <;>
      split_ifs <;> simp_all
  · intro p steps
    rw [example_custom_aggregate_query_stmts]
    by_cases hp : p = false
    · rw [if_pos hp]
    · rw [if_neg hp]
      cases hq : (example_custom_aggregate_query steps).2 <;> rfl

/-- C8 counterexample: the first result row's accumulator blob is 16 bytes —
long enough that the source's read of its first 8 bytes is defined, but its
byte length does not match the 8-byte guard-plus-sum layout — yet
`example_custom_aggregate_query` reports no decoding error and succeeds, so
the claim that mismatched-length rows are reported as decoding errors is
false. -/
theorem example_custom_aggregate_query_row_length_counterexample :
    (fun i => if i = 0 then StepResult.row (List.replicate 16 0)
      else StepResult.done) 0 = StepResult.row (List.replicate 16 0)
    ∧ (List.replicate 16 (0 : Nat)).length ≠ example_agg_f_s_size
    ∧ example_agg_f_s_size ≤ (List.replicate 16 (0 : Nat)).length
    ∧ (example_custom_aggregate_query
        (fun i => if i = 0 then StepResult.row (List.replicate 16 0)
          else StepResult.done)).2
      = QueryResult.ok := by
  refine ⟨rfl, by decide, by decide, ?_⟩
  rw [example_custom_aggregate_query,
    show EXAMPLE_MAX_QUERY_LOOP_STEPS = 1048574 + 1 + 1 from rfl,
    example_agg_query_loop_step_row
      (show (fun i => if i = 0 then StepResult.row (List.replicate 16 0)
        else StepResult.done) 0 = StepResult.row (List.replicate 16 0) from rfl),
    example_agg_query_loop_step_done
      (show (fun i => if i = 0 then StepResult.row (List.replicate 16 0)
        else StepResult.done) 1 = StepResult.done from rfl)]

/-- C8 (amended): `example_custom_aggregate_query` reads each row's
accumulator blob only to log its first 8 bytes and performs no byte-length
validation; over the step sequences on which that read is defined — every
row blob at least `example_agg_f_s_size` bytes, as every blob this program's
aggregate emits is — the step count and outcome are independent of the rows'
blob contents and lengths, so no mismatched-length row is ever reported as a
decoding error. -/
theorem example_custom_aggregate_query_no_length_validation
    (steps : Nat → StepResult) (g : List Nat → List Nat)
    (hsteps : ∀ n b, steps n = StepResult.row b → example_agg_f_s_size ≤ b.length)
    (hg : ∀ b, example_agg_f_s_size ≤ b.length → example_agg_f_s_size ≤ (g b).length) :
    example_custom_aggregate_query (fun n => (steps n).mapBlob g)
      = example_custom_aggregate_query steps := by
  rw [example_custom_aggregate_query, example_custom_aggregate_query,
    example_agg_query_loop_mapBlob]

/-- Witness for C8's amended theorem: one well-sized 8-byte row whose blob is
rewritten to 16 bytes without affecting the query. -/
theorem example_custom_aggregate_query_no_length_validation_witness :
    example_custom_aggregate_query
        (fun n => ((fun i => if i = 0 then StepResult.row (List.replicate 8 0)
          else StepResult.done) n).mapBlob (fun b => b ++ b))
      = example_custom_aggregate_query
        (fun i => if i = 0 then StepResult.row (List.replicate 8 0)
          else StepResult.done) :=
  example_custom_aggregate_query_no_length_validation
    (fun i => if i = 0 then StepResult.row (List.replicate 8 0)
      else StepResult.done)
    (fun b => b ++ b)
    (by
      intro n b h
      cases n with
      | zero =>
        simp only [if_pos rfl] at h
        cases h
        decide
      | succ m =>
        simp at h
    )
    (by
      intro b h
      simp only [List.length_append]
      omega)

/-- C9: `example_serialize` fails (returns -1) exactly when the engine
reports the sentinel serialized length -1, and succeeds for every other
length; in particular every non-negative length — a legitimately empty
database included — is a success. -/
theorem example_serialize_iff :
    ∀ db_len : Int,
      (example_serialize db_len = -1 ↔ db_len = -1)
      ∧ (0 ≤ db_len → example_serialize db_len = 0) := by
  intro l
  constructor
  · constructor
    · intro h
      by_contra hne
      rw [example_serialize, if_neg hne] at h
      exact absurd h (by decide)
    · intro h
      rw [example_serialize, if_pos h]
  · intro h
    rw [example_serialize, if_neg (by omega)]

/-- Witness for C9: a concrete non-negative length succeeds. -/
theorem example_serialize_iff_witness : example_serialize 4096 = 0 :=
  (example_serialize_iff 4096).2 (by norm_num)

/-- C10: `example_device_new` binds exactly the first `deviceid_len` bytes of
the identifier; `main` passes the 13-character literal with length 12, so the
bound and inserted value is the 12-character prefix, which satisfies the
12-character check constraint and inserts successfully into a fresh devices
table. -/
theorem example_device_new_truncates :
    (∀ (s : List Char) (n : Nat), n ≤ s.length →
      (sqlite3_bind_text_value s n).length = n)
    ∧ sqlite3_bind_text_value "0123456789012".toList 12 = "012345678901".toList
    ∧ "0123456789012".toList.length = 13
    ∧ example_device_new [] "0123456789012".toList 12
        = DeviceInsertResult.ok ["012345678901".toList] := by
  refine ⟨?_, by decide, by decide, by decide⟩
  intro s n h
  simp [sqlite3_bind_text_value, List.length_take, h]

/-- Witness for C10: binding 2 of 4 bytes yields a 2-byte value. -/
theorem example_device_new_truncates_witness :
    (sqlite3_bind_text_value "abcd".toList 2).length = 2 :=
  example_device_new_truncates.1 "abcd".toList 2 (by decide)
